import Mathlib

/-!
Shallow embedding of `erddapy/core/interfaces.py`: four conversion functions
(`to_pandas`, `to_ncCF`, `to_xarray`, `to_iris`) that take a URL, fetch or
delegate a fetch, and hand the result to a third-party library. External
collaborators (`urlopen`, `pandas.read_csv`, `_nc_dataset`,
`xarray.open_dataset`, `iris.load_raw`, cube materialization, temporary file
naming) are modelled as an oracle environment `Env`. Each embedded function
returns the list of collaborator calls it performed (in order) together with
its result, where a raised exception is an `Except.error`.
-/

namespace Erddapy

/-- Values carried by keyword arguments (opaque; modelled as strings). -/
abbrev Val := String

/-- A Python keyword-argument dictionary, modelled as an association list. -/
abbrev Kwargs := List (String × Val)

/-- Raw bytes returned by the fetch collaborator. -/
abbrev Bytes := String

/-- Opaque handle to a pandas DataFrame produced by `pandas.read_csv`. -/
abbrev DataFrame := Nat

/-- Opaque handle to a `netCDF4.Dataset` produced by `_nc_dataset`. -/
abbrev NcDataset := Nat

/-- Opaque handle to an `xarray.Dataset`. -/
abbrev XrDataset := Nat

/-- Opaque handle to a single iris cube. -/
abbrev Cube := Nat

/-- A Python exception. `raised msg` is `raise E(msg)` with no cause,
`raisedFrom msg cause` is `raise E(msg) from cause`, and `foreign tag` is an
opaque exception coming out of a collaborator. -/
inductive Exn where
  | raised (msg : String)
  | raisedFrom (msg : String) (cause : Exn)
  | foreign (tag : String)
deriving Repr, DecidableEq

/-- One observable call to a collaborator, or a temporary-file lifecycle step. -/
inductive Event where
  | urlopenCall (url : String) (kwargs : Kwargs)
  | readCsvCall (data : Bytes) (kw : Kwargs)
  | ncDatasetCall (url : String) (auth : Option Val) (kwargs : Kwargs)
  | xrOpenUrl (url : String) (kw : Kwargs)
  | xrOpenStore (nc : NcDataset) (kw : Kwargs)
  | tmpCreate (path : String)
  | irisLoad (path : String) (kw : Kwargs)
  | cubeData (c : Cube)
  | tmpDelete (path : String)
deriving Repr, DecidableEq

/-- The oracle environment: the behaviour of every external collaborator the
four functions call. Fallible collaborators return `Except Exn`. -/
structure Env where
  urlopen : String → Kwargs → Except Exn Bytes
  read_csv : Bytes → Kwargs → Except Exn DataFrame
  nc_dataset : String → Option Val → Kwargs → Except Exn NcDataset
  xr_open_dataset : String → Kwargs → Except Exn XrDataset
  xr_open_datastore : NcDataset → Kwargs → Except Exn XrDataset
  tmpname : Bytes → String
  iris_load_raw : String → Kwargs → Except Exn (List Cube)
  cube_data : Cube → Except Exn Unit

/-- Python `kw.pop(key, None)` on a dictionary: the looked-up value (or
`none`) together with the dictionary without that key. -/
def popKw (kw : Kwargs) (key : String) : Option Val × Kwargs :=
  match kw.lookup key with
  | some v => (some v, kw.filter (fun p => p.1 ≠ key))
  | none => (none, kw)

/-- Embedding of `to_pandas(url, requests_kwargs=None, **kw)`: fetch via
`urlopen(url, **requests_kwargs)`, then `pd.read_csv(data, **kw)`; any parse
exception is re-raised as a ValueError naming the URL, with the original
exception as cause. -/
def to_pandas (env : Env) (url : String) (requests_kwargs : Option Kwargs)
    (kw : Kwargs) : List Event × Except Exn DataFrame :=
  let rk := requests_kwargs.getD []
  match env.urlopen url rk with
  | .error e => ([.urlopenCall url rk], .error e)
  | .ok data =>
    match env.read_csv data kw with
    | .ok df => ([.urlopenCall url rk, .readCsvCall data kw], .ok df)
    | .error e =>
      ([.urlopenCall url rk, .readCsvCall data kw],
       .error (.raisedFrom ("Could not read url " ++ url ++ " with Pandas.read_csv.") e))

/-- The message of the ValueError raised by `to_ncCF` for the griddap protocol. -/
def ncCFGriddapMsg (url : String) : String :=
  "Cannot use .ncCF with griddap protocol. The URL you tried to access is: \x27"
    ++ url ++ "\x27."

/-- Embedding of `to_ncCF(url, protocol=None, **kw)`: reject the griddap
protocol with a ValueError before any collaborator call; otherwise pop `auth`
from `kw` and call `_nc_dataset(url, auth=auth, **kw)`. -/
def to_ncCF (env : Env) (url : String) (protocol : Option String)
    (kw : Kwargs) : List Event × Except Exn NcDataset :=
  if protocol = some "griddap" then
    ([], .error (.raised (ncCFGriddapMsg url)))
  else
    let a := popKw kw "auth"
    match env.nc_dataset url a.1 a.2 with
    | .ok ds => ([.ncDatasetCall url a.1 a.2], .ok ds)
    | .error e => ([.ncDatasetCall url a.1 a.2], .error e)

/-- Embedding of `to_xarray(url, response="opendap", requests_kwargs=None,
**kw)`: pop `auth` from `kw`; in the default "opendap" mode call
`xr.open_dataset(url, **kw)` directly (neither `auth` nor `requests_kwargs`
is used); otherwise call `_nc_dataset(url, auth=auth, **requests_kwargs)` and
wrap the result in a datastore passed to `xr.open_dataset`. -/
def to_xarray (env : Env) (url : String) (response : String)
    (requests_kwargs : Option Kwargs) (kw : Kwargs) :
    List Event × Except Exn XrDataset :=
  let a := popKw kw "auth"
  if response = "opendap" then
    match env.xr_open_dataset url a.2 with
    | .ok ds => ([.xrOpenUrl url a.2], .ok ds)
    | .error e => ([.xrOpenUrl url a.2], .error e)
  else
    let rk := requests_kwargs.getD []
    match env.nc_dataset url a.1 rk with
    | .error e => ([.ncDatasetCall url a.1 rk], .error e)
    | .ok nc =>
      match env.xr_open_datastore nc a.2 with
      | .ok ds => ([.ncDatasetCall url a.1 rk, .xrOpenStore nc a.2], .ok ds)
      | .error e => ([.ncDatasetCall url a.1 rk, .xrOpenStore nc a.2], .error e)

/-- Sequential materialization `_ = [cube.data for cube in cubes]`: access
`cube.data` for each cube in order, stopping at the first exception. -/
def materializeAll (env : Env) : List Cube → List Event × Except Exn Unit
  | [] => ([], .ok ())
  | c :: cs =>
    match env.cube_data c with
    | .error e => ([.cubeData c], .error e)
    | .ok _ =>
      let r := materializeAll env cs
      (.cubeData c :: r.1, r.2)

/-- Modelled from the spec: `_tempnc` (from `erddapy.core.netcdf`, not in the
excerpt) is the scoped-temporary-file capability of spec section 6: given byte
content it yields a filesystem path valid for the duration of a scoped block
and deleted afterward, on all exit paths including exceptions in the body. -/
def tempncScope (tmp : String) (body : List Event × Except Exn α) :
    List Event × Except Exn α :=
  (Event.tmpCreate tmp :: body.1 ++ [Event.tmpDelete tmp], body.2)

/-- Embedding of `to_iris(url, requests_kwargs=None, **kw)`: fetch via
`urlopen`, write the bytes to a scoped temporary file, `iris.load_raw` from
it, materialize every cube eagerly, and return the cubes. -/
def to_iris (env : Env) (url : String) (requests_kwargs : Option Kwargs)
    (kw : Kwargs) : List Event × Except Exn (List Cube) :=
  let rk := requests_kwargs.getD []
  match env.urlopen url rk with
  | .error e => ([.urlopenCall url rk], .error e)
  | .ok data =>
    let tmp := env.tmpname data
    let body : List Event × Except Exn (List Cube) :=
      match env.iris_load_raw tmp kw with
      | .error e => ([.irisLoad tmp kw], .error e)
      | .ok cubes =>
        let m := materializeAll env cubes
        (.irisLoad tmp kw :: m.1,
         match m.2 with
         | .ok _ => .ok cubes
         | .error e => .error e)
    let s := tempncScope tmp body
    (.urlopenCall url rk :: s.1, s.2)

/-- One step of the temporary-file lifecycle: a create adds the path, a delete
removes it, every other event leaves the set of live files unchanged. -/
def tmpStep (acc : List String) (ev : Event) : List String :=
  match ev with
  | .tmpCreate p => p :: acc
  | .tmpDelete p => acc.filter (fun q => q ≠ p)
  | _ => acc

/-- Temporary files still existing after a trace: created and not yet deleted. -/
def tempFilesLive (tr : List Event) : List String :=
  tr.foldl tmpStep []

/-- Whether an event is an invocation of a byte-fetch collaborator
(`urlopen` or `_nc_dataset`). -/
def isFetchCall : Event → Bool
  | .urlopenCall _ _ => true
  | .ncDatasetCall _ _ _ => true
  | _ => false

/-- The URL argument carried by an event, when it takes one. -/
def eventUrl : Event → Option String
  | .urlopenCall u _ => some u
  | .ncDatasetCall u _ _ => some u
  | .xrOpenUrl u _ => some u
  | _ => none

/-- Whether an event mentions a given value anywhere among its arguments
(as an auth credential or as a keyword-argument value). -/
def mentionsVal (ev : Event) (v : Val) : Bool :=
  match ev with
  | .urlopenCall _ k => k.any (fun p => p.2 = v)
  | .readCsvCall _ k => k.any (fun p => p.2 = v)
  | .ncDatasetCall _ a k => a = some v || k.any (fun p => p.2 = v)
  | .xrOpenUrl _ k => k.any (fun p => p.2 = v)
  | .xrOpenStore _ k => k.any (fun p => p.2 = v)
  | .irisLoad _ k => k.any (fun p => p.2 = v)
  | _ => false

/-- A concrete environment where every collaborator succeeds. -/
def envOk : Env where
  urlopen := fun _ _ => .ok "payload"
  read_csv := fun _ _ => .ok 7
  nc_dataset := fun _ _ _ => .ok 1
  xr_open_dataset := fun _ _ => .ok 2
  xr_open_datastore := fun _ _ => .ok 3
  tmpname := fun _ => "tmp0.nc"
  iris_load_raw := fun _ _ => .ok [10, 11]
  cube_data := fun _ => .ok ()

/-- A concrete environment whose tabular parser always fails. -/
def envParseFail : Env :=
  { envOk with read_csv := fun _ _ => .error (.foreign "csv") }

/-- A concrete environment whose fetch collaborator always fails. -/
def envTransportFail : Env :=
  { envOk with urlopen := fun _ _ => .error (.foreign "http") }

/-- A concrete environment whose dataset constructor depends on the number of
keyword arguments it receives. -/
def envKwSensitive : Env :=
  { envOk with
    nc_dataset := fun _ _ k => .ok k.length
    xr_open_datastore := fun nc _ => .ok (100 + nc) }

/-- Every event produced by the materialization loop is a cube-data access. -/
theorem materializeAll_cubeData (env : Env) (cs : List Cube) :
    ∀ ev ∈ (materializeAll env cs).1, ∃ c, ev = Event.cubeData c := by
  induction cs with
  | nil => intro ev h; simp [materializeAll] at h
  | cons c cs ih =>
    intro ev h
    unfold materializeAll at h
    cases hc : env.cube_data c with
    | error e => simp [hc] at h; exact ⟨c, h⟩
    | ok u =>
      simp [hc] at h
      rcases h with h | h
      · exact ⟨c, h⟩
      · exact ih ev h

/-- The materialization loop carries no URL in any of its events. -/
theorem materializeAll_no_url (env : Env) (cs : List Cube) :
    (materializeAll env cs).1.filterMap eventUrl = [] := by
  induction cs with
  | nil => rfl
  | cons c cs ih =>
    unfold materializeAll
    cases hc : env.cube_data c <;> simp [hc, eventUrl, ih]

/-- When every cube materializes without exception, the materialization loop
emits exactly one cube-data event per cube, in order, and succeeds. -/
theorem materializeAll_ok (env : Env) (cs : List Cube)
    (h : ∀ c ∈ cs, env.cube_data c = .ok ()) :
    materializeAll env cs = (cs.map Event.cubeData, .ok ()) := by
  induction cs with
  | nil => rfl
  | cons c cs ih =>
    have hc : env.cube_data c = .ok () := h c (by simp)
    unfold materializeAll
    rw [hc, ih (fun d hd => h d (by simp [hd]))]
    simp

/-- Folding the temporary-file step over events that are neither creates nor
deletes leaves the accumulator unchanged. -/
theorem foldl_tmpStep_cubeData (tr : List Event)
    (h : ∀ ev ∈ tr, ∃ c, ev = Event.cubeData c) (acc : List String) :
    tr.foldl tmpStep acc = acc := by
  induction tr generalizing acc with
  | nil => rfl
  | cons ev tr ih =>
    obtain ⟨c, hc⟩ := h ev (by simp)
    subst hc
    exact ih (fun e he => h e (by simp [he])) acc

/-- C1: with protocol "griddap", `to_ncCF` raises a ValueError whose message
names the URL, with an empty collaborator trace (so before any fetch or
dataset-open call); with any other protocol value (including none) it does not
raise this error: it calls the dataset-open collaborator on the URL and
returns that collaborator's outcome. -/
theorem to_ncCF_griddap_fail_fast (env : Env) (url : String)
    (protocol : Option String) (kw : Kwargs) :
    (protocol = some "griddap" →
      to_ncCF env url protocol kw = ([], .error (.raised (ncCFGriddapMsg url))) ∧
      ∃ pre post, ncCFGriddapMsg url = pre ++ url ++ post) ∧
    (protocol ≠ some "griddap" →
      (to_ncCF env url protocol kw).1 =
        [.ncDatasetCall url (popKw kw "auth").1 (popKw kw "auth").2] ∧
      (to_ncCF env url protocol kw).2 =
        env.nc_dataset url (popKw kw "auth").1 (popKw kw "auth").2) := by
  constructor
  · intro hp
    subst hp
    exact ⟨rfl, "Cannot use .ncCF with griddap protocol. The URL you tried to access is: \x27",
      "\x27.", rfl⟩
  · intro hp
    unfold to_ncCF
    rw [if_neg hp]
    cases h : env.nc_dataset url (popKw kw "auth").1 (popKw kw "auth").2 <;> simp [h]

theorem to_ncCF_griddap_fail_fast_witness :
    (to_ncCF envOk "http://server/erddap/data.ncCF" (some "griddap") [] =
      ([], .error (.raised (ncCFGriddapMsg "http://server/erddap/data.ncCF"))) ∧
      ∃ pre post,
        ncCFGriddapMsg "http://server/erddap/data.ncCF" =
          pre ++ "http://server/erddap/data.ncCF" ++ post) ∧
    ((to_ncCF envOk "http://server/erddap/data.ncCF" (some "tabledap")
        [("auth", "tok")]).1 =
      [.ncDatasetCall "http://server/erddap/data.ncCF" (some "tok") []] ∧
      (to_ncCF envOk "http://server/erddap/data.ncCF" (some "tabledap")
        [("auth", "tok")]).2 =
        envOk.nc_dataset "http://server/erddap/data.ncCF" (some "tok") []) := by
  constructor
  · exact (to_ncCF_griddap_fail_fast envOk "http://server/erddap/data.ncCF"
      (some "griddap") []).1 rfl
  · have h := (to_ncCF_griddap_fail_fast envOk "http://server/erddap/data.ncCF"
      (some "tabledap") [("auth", "tok")]).2 (by decide)
    simpa [popKw] using h

/-- C2: when the fetch succeeds but tabular parsing raises, `to_pandas`
re-raises a ValueError whose message contains the original URL and whose cause
is the original parse exception. -/
theorem to_pandas_wraps_parse_failure (env : Env) (url : String)
    (rk : Option Kwargs) (kw : Kwargs) (data : Bytes) (e : Exn)
    (hfetch : env.urlopen url (rk.getD []) = .ok data)
    (hparse : env.read_csv data kw = .error e) :
    ∃ pre post,
      (to_pandas env url rk kw).2 = .error (.raisedFrom (pre ++ url ++ post) e) := by
  refine ⟨"Could not read url ", " with Pandas.read_csv.", ?_⟩
  simp [to_pandas, hfetch, hparse]

theorem to_pandas_wraps_parse_failure_witness :
    ∃ pre post,
      (to_pandas envParseFail "http://server/tab.csv" none []).2 =
        .error (.raisedFrom (pre ++ "http://server/tab.csv" ++ post) (.foreign "csv")) :=
  to_pandas_wraps_parse_failure envParseFail "http://server/tab.csv" none []
    "payload" (.foreign "csv") rfl rfl

/-- C7: when the fetch collaborator itself raises in `to_pandas`, that
exception propagates to the caller unmodified — it is not wrapped in the
URL-naming ValueError — and no parsing call is made. -/
theorem to_pandas_transport_propagates (env : Env) (url : String)
    (rk : Option Kwargs) (kw : Kwargs) (e : Exn)
    (hfetch : env.urlopen url (rk.getD []) = .error e) :
    to_pandas env url rk kw = ([.urlopenCall url (rk.getD [])], .error e) := by
  simp [to_pandas, hfetch]

theorem to_pandas_transport_propagates_witness :
    to_pandas envTransportFail "http://server/tab.csv" none [] =
      ([.urlopenCall "http://server/tab.csv" []], .error (.foreign "http")) :=
  to_pandas_transport_propagates envTransportFail "http://server/tab.csv" none []
    (.foreign "http") rfl

/-- C4: in the default response mode ("opendap"), `to_xarray` makes exactly
one collaborator call — opening the dataset directly from the URL — and in
particular never invokes a byte-fetch collaborator. -/
theorem to_xarray_opendap_no_fetch (env : Env) (url : String)
    (rk : Option Kwargs) (kw : Kwargs) :
    (to_xarray env url "opendap" rk kw).1 = [.xrOpenUrl url (popKw kw "auth").2] ∧
    (to_xarray env url "opendap" rk kw).1.filter isFetchCall = [] := by
  cases h : env.xr_open_dataset url (popKw kw "auth").2 <;>
    simp [to_xarray, h, isFetchCall]

/-- Looking up a key in an association list from which every pair with that
key has been filtered out yields nothing. -/
theorem lookup_filter_ne (kw : Kwargs) (k : String) :
    (kw.filter (fun p => p.1 ≠ k)).lookup k = none := by
  simp
  intro a b hmem hne
  exact fun he => hne he.symm

/-- After popping a key from a keyword dictionary, the remaining dictionary no
longer binds that key. -/
theorem popKw_lookup_eq_none (kw : Kwargs) (k : String) :
    ((popKw kw k).2).lookup k = none := by
  unfold popKw
  cases h : kw.lookup k with
  | none => simpa using h
  | some v => simpa using lookup_filter_ne kw k

/-- C3: whether `to_iris` succeeds or raises (fetch failure, cube-load
failure, or materialization failure), no temporary file it created is still
live after the call: every create in its trace is followed by a delete. -/
theorem to_iris_tempfile_deleted (env : Env) (url : String)
    (rk : Option Kwargs) (kw : Kwargs) :
    tempFilesLive (to_iris env url rk kw).1 = [] := by
  unfold tempFilesLive to_iris tempncScope
  cases hf : env.urlopen url (rk.getD []) with
  | error e => simp [hf, tmpStep]
  | ok data =>
    cases hl : env.iris_load_raw (env.tmpname data) kw with
    | error e => simp [hf, hl, tmpStep]
    | ok cubes =>
      simp only [hf, hl, List.cons_append, List.foldl_cons, List.foldl_append]
      rw [foldl_tmpStep_cubeData (materializeAll env cubes).1
        (materializeAll_cubeData env cubes)]
      simp [tmpStep]

/-- C5 counterexample: in a non-default response mode, `to_xarray` does NOT
ignore `requests_kwargs`: with a dataset constructor that is sensitive to its
keyword arguments, two different `requests_kwargs` values give different
collaborator calls and different results. -/
theorem to_xarray_requests_kwargs_counterexample :
    ¬ (to_xarray envKwSensitive "http://server/data" "nc"
        (some [("timeout", "10")]) [] =
       to_xarray envKwSensitive "http://server/data" "nc"
        (some [("timeout", "10"), ("verify", "0")]) []) := by
  intro h
  have h2 := congrArg (fun p => p.2) h
  simp [to_xarray, envKwSensitive, envOk, popKw] at h2

/-- C5 amended: it is the DEFAULT response mode ("opendap") in which
`to_xarray` silently ignores `requests_kwargs` — any two values of it give
identical behaviour there — while in every non-default response mode the
`requests_kwargs` value is forwarded to the dataset-construction
collaborator. -/
theorem to_xarray_requests_kwargs_amended (env : Env) (url : String)
    (response : String) (rk rk1 rk2 : Option Kwargs) (kw : Kwargs) :
    to_xarray env url "opendap" rk1 kw = to_xarray env url "opendap" rk2 kw ∧
    (response ≠ "opendap" →
      (to_xarray env url response rk kw).1.head? =
        some (.ncDatasetCall url (popKw kw "auth").1 (rk.getD []))) := by
  constructor
  · rfl
  · intro hr
    cases hn : env.nc_dataset url (popKw kw "auth").1 (rk.getD []) with
    | error e => simp [to_xarray, if_neg hr, hn]
    | ok nc =>
      cases hs : env.xr_open_datastore nc (popKw kw "auth").2 <;>
        simp [to_xarray, if_neg hr, hn, hs]

theorem to_xarray_requests_kwargs_amended_witness :
    (to_xarray envOk "http://server/data" "opendap" (some [("timeout", "10")]) [] =
      to_xarray envOk "http://server/data" "opendap" (some [("timeout", "20")]) []) ∧
    (to_xarray envOk "http://server/data" "nc" (some [("timeout", "10")]) []).1.head? =
      some (.ncDatasetCall "http://server/data" none [("timeout", "10")]) := by
  have h := to_xarray_requests_kwargs_amended envOk "http://server/data" "nc"
    (some [("timeout", "10")]) (some [("timeout", "10")]) (some [("timeout", "20")]) []
  refine ⟨h.1, ?_⟩
  simpa [popKw] using h.2 (by decide)

/-- C6 counterexample: in the default "opendap" response mode, a supplied auth
credential is NOT forwarded anywhere: the only collaborator call is the direct
open, and no event of the trace mentions the credential value. -/
theorem to_xarray_opendap_auth_dropped :
    ((to_xarray envOk "http://server/data" "opendap" none
        [("auth", "secret")]).1.any (fun ev => mentionsVal ev "secret")) = false ∧
    (to_xarray envOk "http://server/data" "opendap" none [("auth", "secret")]).1 =
      [.xrOpenUrl "http://server/data" []] := by
  exact ⟨rfl, rfl⟩

/-- C6 amended: `to_ncCF` (outside the rejected griddap protocol) always
forwards the popped auth option to the dataset-construction collaborator, and
`to_xarray` does so in every non-default response mode; in the default
"opendap" mode, however, `to_xarray` pops auth out of the keyword arguments
and discards it: the direct open call receives keyword arguments that no
longer bind "auth". -/
theorem auth_forwarded_except_opendap (env : Env) (url : String)
    (protocol : Option String) (response : String) (rk : Option Kwargs)
    (kw : Kwargs) :
    (protocol ≠ some "griddap" →
      (to_ncCF env url protocol kw).1 =
        [.ncDatasetCall url (popKw kw "auth").1 (popKw kw "auth").2]) ∧
    (response ≠ "opendap" →
      (to_xarray env url response rk kw).1.head? =
        some (.ncDatasetCall url (popKw kw "auth").1 (rk.getD []))) ∧
    ((to_xarray env url "opendap" rk kw).1 =
        [.xrOpenUrl url (popKw kw "auth").2] ∧
      ((popKw kw "auth").2).lookup "auth" = none) := by
  refine ⟨?_, ?_, ?_, popKw_lookup_eq_none kw "auth"⟩
  · intro hp
    unfold to_ncCF
    rw [if_neg hp]
    cases h : env.nc_dataset url (popKw kw "auth").1 (popKw kw "auth").2 <;> simp [h]
  · intro hr
    cases hn : env.nc_dataset url (popKw kw "auth").1 (rk.getD []) with
    | error e => simp [to_xarray, if_neg hr, hn]
    | ok nc =>
      cases hs : env.xr_open_datastore nc (popKw kw "auth").2 <;>
        simp [to_xarray, if_neg hr, hn, hs]
  · cases h : env.xr_open_dataset url (popKw kw "auth").2 <;> simp [to_xarray, h]

theorem auth_forwarded_except_opendap_witness :
    (to_ncCF envOk "http://server/data" none [("auth", "tok")]).1 =
      [.ncDatasetCall "http://server/data" (some "tok") []] ∧
    (to_xarray envOk "http://server/data" "nc" none [("auth", "tok")]).1.head? =
      some (.ncDatasetCall "http://server/data" (some "tok") []) ∧
    (to_xarray envOk "http://server/data" "opendap" none [("auth", "tok")]).1 =
      [.xrOpenUrl "http://server/data" []] := by
  have h := auth_forwarded_except_opendap envOk "http://server/data" none "nc"
    none [("auth", "tok")]
  refine ⟨?_, ?_, ?_⟩
  · simpa [popKw] using h.1 (by decide)
  · simpa [popKw] using h.2.1 (by decide)
  · simpa [popKw] using h.2.2.1

/-- C8: on a successful `to_iris` call, every loaded cube is materialized
(one cube-data event per cube, in order) before the function returns, and the
materialization happens inside the temporary-file scope: every cube-data event
precedes the final delete of the temporary file. -/
theorem to_iris_materializes_in_scope (env : Env) (url : String)
    (rk : Option Kwargs) (kw : Kwargs) (data : Bytes) (cubes : List Cube)
    (hf : env.urlopen url (rk.getD []) = .ok data)
    (hl : env.iris_load_raw (env.tmpname data) kw = .ok cubes)
    (hm : ∀ c ∈ cubes, env.cube_data c = .ok ()) :
    to_iris env url rk kw =
      ([.urlopenCall url (rk.getD []), .tmpCreate (env.tmpname data),
        .irisLoad (env.tmpname data) kw] ++ cubes.map Event.cubeData
        ++ [.tmpDelete (env.tmpname data)], .ok cubes) ∧
    ∀ c ∈ cubes, Event.cubeData c ∈ (to_iris env url rk kw).1.dropLast := by
  have htr : to_iris env url rk kw =
      ([.urlopenCall url (rk.getD []), .tmpCreate (env.tmpname data),
        .irisLoad (env.tmpname data) kw] ++ cubes.map Event.cubeData
        ++ [.tmpDelete (env.tmpname data)], .ok cubes) := by
    unfold to_iris tempncScope
    simp only [hf, hl, materializeAll_ok env cubes hm]
    simp
  refine ⟨htr, ?_⟩
  intro c hc
  rw [htr]
  simp only [List.dropLast_concat]
  simp only [List.mem_append, List.mem_map]
  exact Or.inr ⟨c, hc, rfl⟩

theorem to_iris_materializes_in_scope_witness :
    to_iris envOk "http://server/data" none [] =
      ([.urlopenCall "http://server/data" [], .tmpCreate "tmp0.nc",
        .irisLoad "tmp0.nc" []] ++ [10, 11].map Event.cubeData
        ++ [.tmpDelete "tmp0.nc"], .ok [10, 11]) :=
  (to_iris_materializes_in_scope envOk "http://server/data" none [] "payload"
    [10, 11] rfl rfl (fun c _ => rfl)).1

/-- C9: for `to_pandas`, `to_iris`, and `to_xarray` in a non-default response
mode, omitting `requests_kwargs` (Python None) is equivalent to supplying an
empty options mapping: the whole behaviour (collaborator calls and result) is
identical. -/
theorem requests_kwargs_none_eq_empty (env : Env) (url : String)
    (response : String) (kw : Kwargs) (hr : response ≠ "opendap") :
    to_pandas env url none kw = to_pandas env url (some []) kw ∧
    to_iris env url none kw = to_iris env url (some []) kw ∧
    to_xarray env url response none kw = to_xarray env url response (some []) kw :=
  ⟨rfl, rfl, rfl⟩

theorem requests_kwargs_none_eq_empty_witness :
    to_pandas envOk "http://server/data" none [] =
      to_pandas envOk "http://server/data" (some []) [] ∧
    to_iris envOk "http://server/data" none [] =
      to_iris envOk "http://server/data" (some []) [] ∧
    to_xarray envOk "http://server/data" "nc" none [] =
      to_xarray envOk "http://server/data" "nc" (some []) [] :=
  requests_kwargs_none_eq_empty envOk "http://server/data" "nc" [] (by decide)

/-- C10: none of the four functions rewrites the URL: every collaborator call
in any trace that carries a URL carries exactly the caller's URL, the griddap
rejection message embeds the URL verbatim, and the parse-failure wrapper
embeds the URL verbatim. -/
theorem url_passed_verbatim (env : Env) (url : String) (protocol : Option String)
    (response : String) (rk : Option Kwargs) (kw : Kwargs) (data : Bytes)
    (e : Exn) :
    ((to_pandas env url rk kw).1.filterMap eventUrl).all (fun u => u = url) = true ∧
    ((to_ncCF env url protocol kw).1.filterMap eventUrl).all (fun u => u = url) = true ∧
    ((to_xarray env url response rk kw).1.filterMap eventUrl).all
      (fun u => u = url) = true ∧
    ((to_iris env url rk kw).1.filterMap eventUrl).all (fun u => u = url) = true ∧
    (∃ pre post, ncCFGriddapMsg url = pre ++ url ++ post) ∧
    (env.urlopen url (rk.getD []) = .ok data → env.read_csv data kw = .error e →
      ∃ pre post,
        (to_pandas env url rk kw).2 = .error (.raisedFrom (pre ++ url ++ post) e)) := by
  refine ⟨?_, ?_, ?_, ?_, ?_, ?_⟩
  · cases hf : env.urlopen url (rk.getD []) with
    | error e2 => simp [to_pandas, hf, eventUrl]
    | ok d =>
      cases hc : env.read_csv d kw <;> simp [to_pandas, hf, hc, eventUrl]
  · by_cases hp : protocol = some "griddap"
    · simp [to_ncCF, hp, eventUrl]
    · cases hn : env.nc_dataset url (popKw kw "auth").1 (popKw kw "auth").2 <;>
        simp [to_ncCF, if_neg hp, hn, eventUrl]
  · by_cases hr : response = "opendap"
    · subst hr
      cases hx : env.xr_open_dataset url (popKw kw "auth").2 <;>
        simp [to_xarray, hx, eventUrl]
    · cases hn : env.nc_dataset url (popKw kw "auth").1 (rk.getD []) with
      | error e2 => simp [to_xarray, if_neg hr, hn, eventUrl]
      | ok nc =>
        cases hs : env.xr_open_datastore nc (popKw kw "auth").2 <;>
          simp [to_xarray, if_neg hr, hn, hs, eventUrl]
  · cases hf : env.urlopen url (rk.getD []) with
    | error e2 => simp [to_iris, tempncScope, hf, eventUrl]
    | ok d =>
      cases hl : env.iris_load_raw (env.tmpname d) kw with
      | error e2 => simp [to_iris, tempncScope, hf, hl, eventUrl]
      | ok cubes =>
        simp [to_iris, tempncScope, hf, hl, eventUrl,
          materializeAll_no_url env cubes]
  · exact ⟨"Cannot use .ncCF with griddap protocol. The URL you tried to access is: \x27",
      "\x27.", rfl⟩
  · intro hf hc
    refine ⟨"Could not read url ", " with Pandas.read_csv.", ?_⟩
    simp [to_pandas, hf, hc]

theorem url_passed_verbatim_witness :
    ((to_pandas envParseFail "http://server/data" none []).1.filterMap
      eventUrl).all (fun u => u = "http://server/data") = true ∧
    ((to_ncCF envParseFail "http://server/data" (some "tabledap") []).1.filterMap
      eventUrl).all (fun u => u = "http://server/data") = true ∧
    ((to_xarray envParseFail "http://server/data" "nc" none []).1.filterMap
      eventUrl).all (fun u => u = "http://server/data") = true ∧
    ((to_iris envParseFail "http://server/data" none []).1.filterMap
      eventUrl).all (fun u => u = "http://server/data") = true ∧
    (∃ pre post,
      ncCFGriddapMsg "http://server/data" = pre ++ "http://server/data" ++ post) ∧
    (∃ pre post,
      (to_pandas envParseFail "http://server/data" none []).2 =
        .error (.raisedFrom (pre ++ "http://server/data" ++ post) (.foreign "csv"))) := by
  have h := url_passed_verbatim envParseFail "http://server/data" (some "tabledap")
    "nc" none [] "payload" (.foreign "csv")
  exact ⟨h.1, h.2.1, h.2.2.1, h.2.2.2.1, h.2.2.2.2.1, h.2.2.2.2.2 rfl rfl⟩

end Erddapy
